import Mathlib

set_option maxRecDepth 40000

/-!
Verification of `images/create_icons.py` from the motuwe-chrome-extension
repository: a shallow embedding of the PNG icon generator in Lean 4, with
theorems checking the specified properties of the encoder and the driver.

Modelling conventions:
* Python `bytes` values are `List Nat` with every entry below 256.
* Python integers are `Int` (arbitrary precision, possibly negative).
* `struct.pack` range failures and file-write failures are `Except PyError`.
* `zlib.compress` is an external library routine; it is modelled as an
  abstract function parameter `comp : List Nat → List Nat`, and the standard
  zlib inverse (`inflate`) as an abstract `decomp` assumed to invert `comp`.
* `zlib.crc32` is the standard CRC-32 (polynomial 0xEDB88320, reflected),
  implemented executably below, exactly as the library computes it.
* Writing a file is modelled by returning the `(filename, contents)` pair;
  a path that is not writable raises `PyError.ioError`.
-/

/-- Errors a `create_icon` call can raise: `structError` models Python's
`struct.error` (value out of range for the format code), `ioError` models an
`OSError` from opening an unwritable path. -/
inductive PyError where
  | structError
  | ioError
deriving DecidableEq, Repr

/-- Big-endian 4-byte encoding of a natural number already known to be below
`2^32`; the byte list produced by `struct.pack` with format `>I`. -/
def to32be (n : Nat) : List Nat :=
  [n / 2 ^ 24 % 256, n / 2 ^ 16 % 256, n / 2 ^ 8 % 256, n % 256]

/-- Model of `struct.pack('>I', x)`: succeeds with the 4-byte big-endian
encoding when `0 ≤ x < 2^32`, raises `struct.error` otherwise. -/
def packU32 (x : Int) : Except PyError (List Nat) :=
  if 0 ≤ x ∧ x < 2 ^ 32 then .ok (to32be x.toNat) else .error .structError

/-- One bit-step of the reflected CRC-32 update used by `zlib.crc32`. -/
def crc32Round (c : Nat) : Nat :=
  if c % 2 = 1 then (c / 2) ^^^ 0xEDB88320 else c / 2

/-- Fold one data byte into the CRC-32 accumulator (xor the byte into the
low bits, then eight bit-steps). -/
def crc32Byte (c b : Nat) : Nat :=
  (List.range 8).foldl (fun acc _ => crc32Round acc) (c ^^^ b % 256)

/-- `zlib.crc32(data)` with the default starting value 0: pre/post
conditioning with `0xFFFFFFFF` around the byte-wise accumulator. -/
def crc32 (data : List Nat) : Nat :=
  (data.foldl crc32Byte 0xFFFFFFFF) ^^^ 0xFFFFFFFF

/-- The 8-byte PNG signature, `b'\x89PNG\r\n\x1a\n'` in the source. -/
def PNG_SIG : List Nat := [0x89, 0x50, 0x4E, 0x47, 0x0D, 0x0A, 0x1A, 0x0A]

/-- The ASCII bytes of the chunk tag `b'IHDR'`. -/
def IHDR_TY : List Nat := [0x49, 0x48, 0x44, 0x52]

/-- The ASCII bytes of the chunk tag `b'IDAT'`. -/
def IDAT_TY : List Nat := [0x49, 0x44, 0x41, 0x54]

/-- The ASCII bytes of the chunk tag `b'IEND'`. -/
def IEND_TY : List Nat := [0x49, 0x45, 0x4E, 0x44]

/-- Model of `struct.pack('>IIBBBBB', width, height, 8, 2, 0, 0, 0)`: the
13-byte IHDR payload, failing like `struct.pack` when a dimension does not
fit an unsigned 4-byte field.  The five trailing constants 8 (bit depth),
2 (RGB color type), 0 (compression), 0 (filter method), 0 (interlace) are
in the `B` range, so only the two `I` fields can fail. -/
def ihdr_data (size : Int) : Except PyError (List Nat) := do
  let w ← packU32 size
  let h ← packU32 size
  pure (w ++ h ++ [8, 2, 0, 0, 0])

/-- One scanline, as built in the inner loop: the filter-type byte `0x00`
followed by `width` copies of the Material Green triple `\x4c\xaf\x50`. -/
def scanline (width : Int) : List Nat :=
  0x00 :: (List.replicate width.toNat [0x4C, 0xAF, 0x50]).flatten

/-- `b''.flatten(scanlines)`: `height` (= `size`) identical scanlines
concatenated, the raw buffer handed to `zlib.compress`. -/
def raw_data (size : Int) : List Nat :=
  (List.replicate size.toNat (scanline size)).flatten

/-- The serialized IHDR chunk: `struct.pack('>I', 13) + b'IHDR' + ihdr_data
+ struct.pack('>I', ihdr_crc)` with `ihdr_crc = zlib.crc32(b'IHDR' +
ihdr_data)`. -/
def ihdr_chunk (size : Int) : Except PyError (List Nat) := do
  let d ← ihdr_data size
  let c ← packU32 (crc32 (IHDR_TY ++ d))
  pure (to32be 13 ++ IHDR_TY ++ d ++ c)

/-- The serialized IDAT chunk: length of the compressed payload, tag,
compressed payload, CRC over tag ++ payload. -/
def idat_chunk (comp : List Nat → List Nat) (size : Int) :
    Except PyError (List Nat) := do
  let compressed := comp (raw_data size)
  let len ← packU32 compressed.length
  let c ← packU32 (crc32 (IDAT_TY ++ compressed))
  pure (len ++ IDAT_TY ++ compressed ++ c)

/-- The serialized IEND chunk: zero length, tag, CRC over the tag alone. -/
def iend_chunk : Except PyError (List Nat) := do
  let c ← packU32 (crc32 IEND_TY)
  pure (to32be 0 ++ IEND_TY ++ c)

/-- `png_data = header + ihdr_chunk + idat_chunk + iend_chunk`, assembled in
the order the source computes the pieces. -/
def png_data (comp : List Nat → List Nat) (size : Int) :
    Except PyError (List Nat) := do
  let ih ← ihdr_chunk size
  let idc ← idat_chunk comp size
  let ie ← iend_chunk
  pure (PNG_SIG ++ ih ++ idc ++ ie)

/-- `create_icon(size, filename)`: assemble the full PNG byte sequence in
memory, then open `filename` for writing and write it.  A successful call
returns the written `(filename, contents)` pair; `writable` says which paths
`open(..., 'wb')` accepts. -/
def create_icon (comp : List Nat → List Nat) (writable : String → Bool)
    (size : Int) (filename : String) :
    Except PyError (String × List Nat) := do
  let png ← png_data comp size
  if writable filename then pure (filename, png) else .error .ioError

/-- The IHDR payload that a successful `ihdr_data` call produces. -/
def ihdr_payload (size : Int) : List Nat :=
  to32be size.toNat ++ to32be size.toNat ++ [8, 2, 0, 0, 0]

/-- The IDAT payload: the compressor's output on the raw scanline buffer. -/
def idat_payload (comp : List Nat → List Nat) (size : Int) : List Nat :=
  comp (raw_data size)

/-- A serialized PNG chunk as the spec describes it: 4-byte big-endian
length of the payload, 4-byte type tag, payload, then the 4-byte big-endian
CRC-32 computed over (type ++ payload). -/
def serializeChunk (ty payload : List Nat) : List Nat :=
  to32be payload.length ++ ty ++ payload ++ to32be (crc32 (ty ++ payload))

/-- Modelled from the spec's words (the round-trip target of C1): `size`
rows, each a filter byte 0 followed by `size` pixel triples (76, 175, 80). -/
def greenImageRows (size : Int) : List Nat :=
  (List.replicate size.toNat
    (0 :: (List.replicate size.toNat [76, 175, 80]).flatten)).flatten

/-- The four `create_icon` invocations at the bottom of the script, in
source order. -/
def icon_calls : List (Int × String) :=
  [(16, "icon16.png"), (32, "icon32.png"), (48, "icon48.png"), (128, "icon128.png")]

/-- Run a list of icon-encoder calls the way the Python interpreter runs
the script's top level: sequentially, stopping at the first uncaught
exception.  Returns the files written so far and the terminating error,
if any. -/
def runCalls (run : Int → String → Except PyError (String × List Nat)) :
    List (Int × String) → List (String × List Nat) × Option PyError :=
  List.foldr
    (fun sf ih =>
      match run sf.1 sf.2 with
      | .ok r => (r :: ih.1, ih.2)
      | .error e => ([], some e))
    ([], none)

/-- The whole script: the four hard-coded `create_icon` calls run in
order. -/
def runScript (comp : List Nat → List Nat) (writable : String → Bool) :
    List (String × List Nat) × Option PyError :=
  runCalls (create_icon comp writable) icon_calls

/-- Whether an `Except` computation finished without raising. -/
def exceptOk {α : Type} : Except PyError α → Bool
  | .ok _ => true
  | .error _ => false

instance {ε α : Type} [DecidableEq ε] [DecidableEq α] :
    DecidableEq (Except ε α) := fun x y =>
  match x, y with
  | .ok a, .ok b => decidable_of_iff (a = b) (by simp)
  | .ok _, .error _ => .isFalse (by simp)
  | .error _, .ok _ => .isFalse (by simp)
  | .error e, .error f => decidable_of_iff (e = f) (by simp)

/-- The PNG byte stream at size 2 with the trivial compressor
`fun _ => []`, used as a concrete evaluation point for witnesses. -/
def icon2Bytes : List Nat :=
  (png_data (fun _ => ([] : List Nat)) 2).toOption.getD []

/-- The PNG byte stream at size 1 with the trivial compressor. -/
def icon1Bytes : List Nat :=
  (png_data (fun _ => ([] : List Nat)) 1).toOption.getD []

/-- The IHDR payload at size 2, as `ihdr_data` computes it. -/
def ihdrPayload2 : List Nat := (ihdr_data 2).toOption.getD []

-- ## Helper lemmas

-- Quick sanity checks of the embedding on tiny inputs.
example : to32be 13 = [0, 0, 0, 13] := by decide
example : raw_data 1 = [0, 76, 175, 80] := by decide
example : crc32 IEND_TY = 0xAE426082 := by decide

theorem exceptBind_ok {α β : Type} {x : Except PyError α}
    {f : α → Except PyError β} {b : β} :
    (x >>= f) = .ok b ↔ ∃ a, x = .ok a ∧ f a = .ok b := by
  cases x <;> simp [Bind.bind, Except.bind]

theorem packU32_eq_ok {x : Int} {l : List Nat} :
    packU32 x = .ok l ↔ (0 ≤ x ∧ x < 2 ^ 32) ∧ l = to32be x.toNat := by
  unfold packU32
  split <;> simp_all [eq_comm]

theorem xor32_lt {x y : Nat} (hx : x < 2 ^ 32) (hy : y < 2 ^ 32) :
    x ^^^ y < 2 ^ 32 := by
  have := Nat.bitwise_lt (f := bne) hx hy
  simpa [Nat.xor] using this

theorem crc32Round_lt {c : Nat} (h : c < 2 ^ 32) : crc32Round c < 2 ^ 32 := by
  unfold crc32Round
  split
  · exact xor32_lt (by omega) (by norm_num)
  · omega

theorem foldlRound_lt (l : List Nat) {c : Nat} (h : c < 2 ^ 32) :
    l.foldl (fun acc _ => crc32Round acc) c < 2 ^ 32 := by
  induction l generalizing c with
  | nil => simpa using h
  | cons a t ih => exact ih (crc32Round_lt h)

theorem crc32Byte_lt {c : Nat} (b : Nat) (h : c < 2 ^ 32) :
    crc32Byte c b < 2 ^ 32 := by
  unfold crc32Byte
  exact foldlRound_lt _ (xor32_lt h (by omega))

theorem foldlByte_lt (l : List Nat) {c : Nat} (h : c < 2 ^ 32) :
    l.foldl crc32Byte c < 2 ^ 32 := by
  induction l generalizing c with
  | nil => simpa using h
  | cons a t ih => exact ih (crc32Byte_lt a h)

theorem crc32_lt (data : List Nat) : crc32 data < 2 ^ 32 := by
  unfold crc32
  exact xor32_lt (foldlByte_lt data (by norm_num)) (by norm_num)

theorem packU32_natCast_ok {n : Nat} (h : n < 2 ^ 32) :
    packU32 (n : Int) = .ok (to32be n) := by
  unfold packU32
  rw [if_pos ⟨Int.ofNat_nonneg n, by exact_mod_cast h⟩]
  simp

theorem flatten_replicate_length (n : Nat) (l : List Nat) :
    ((List.replicate n l).flatten).length = n * l.length := by
  induction n with
  | zero => simp
  | succ k ih => simp [List.replicate_succ, ih]; ring

theorem scanline_length (width : Int) :
    (scanline width).length = 1 + 3 * width.toNat := by
  simp [scanline, flatten_replicate_length]
  ring

theorem raw_data_length (size : Int) :
    (raw_data size).length = size.toNat * (1 + 3 * size.toNat) := by
  rw [raw_data, flatten_replicate_length, scanline_length]

theorem ihdr_payload_length (size : Int) : (ihdr_payload size).length = 13 := by
  simp [ihdr_payload, to32be]

theorem packU32_pos {x : Int} (h : 0 ≤ x ∧ x < 2 ^ 32) :
    packU32 x = .ok (to32be x.toNat) := by
  unfold packU32
  rw [if_pos h]

theorem packU32_neg {x : Int} (h : ¬(0 ≤ x ∧ x < 2 ^ 32)) :
    packU32 x = .error .structError := by
  unfold packU32
  rw [if_neg h]

theorem ihdr_data_ok_iff {size : Int} {l : List Nat} :
    ihdr_data size = .ok l ↔
      (0 ≤ size ∧ size < 2 ^ 32) ∧ l = ihdr_payload size := by
  unfold ihdr_data
  by_cases hc : 0 ≤ size ∧ size < 2 ^ 32
  · rw [packU32_pos hc]
    simp only [Bind.bind, Except.bind, pure, Except.pure, Except.ok.injEq]
    constructor
    · intro h
      exact ⟨hc, h.symm⟩
    · rintro ⟨_, rfl⟩
      rfl
  · rw [packU32_neg hc]
    constructor
    · intro h
      simp [Bind.bind, Except.bind] at h
    · rintro ⟨hb, _⟩
      exact absurd hb hc

theorem ihdr_chunk_ok_iff {size : Int} {l : List Nat} :
    ihdr_chunk size = .ok l ↔
      (0 ≤ size ∧ size < 2 ^ 32) ∧
      l = to32be 13 ++ IHDR_TY ++ ihdr_payload size
            ++ to32be (crc32 (IHDR_TY ++ ihdr_payload size)) := by
  unfold ihdr_chunk
  constructor
  · intro h
    obtain ⟨d, hd, h2⟩ := exceptBind_ok.mp h
    obtain ⟨hb, rfl⟩ := ihdr_data_ok_iff.mp hd
    rw [packU32_natCast_ok (crc32_lt _)] at h2
    simp only [Bind.bind, Except.bind, pure, Except.pure, Except.ok.injEq] at h2
    exact ⟨hb, h2.symm⟩
  · rintro ⟨hb, rfl⟩
    rw [exceptBind_ok]
    refine ⟨ihdr_payload size, ihdr_data_ok_iff.mpr ⟨hb, rfl⟩, ?_⟩
    rw [exceptBind_ok]
    exact ⟨_, packU32_natCast_ok (crc32_lt _), rfl⟩

theorem idat_chunk_ok_iff {comp : List Nat → List Nat} {size : Int}
    {l : List Nat} :
    idat_chunk comp size = .ok l ↔
      (comp (raw_data size)).length < 2 ^ 32 ∧
      l = to32be (comp (raw_data size)).length ++ IDAT_TY ++ comp (raw_data size)
            ++ to32be (crc32 (IDAT_TY ++ comp (raw_data size))) := by
  show (packU32 ((comp (raw_data size)).length : Int) >>= fun len =>
      packU32 ((crc32 (IDAT_TY ++ comp (raw_data size)) : Nat) : Int) >>= fun c =>
        pure (len ++ IDAT_TY ++ comp (raw_data size) ++ c)) = .ok l ↔ _
  constructor
  · intro h
    obtain ⟨len, hlen, h2⟩ := exceptBind_ok.mp h
    obtain ⟨c, hc2, h3⟩ := exceptBind_ok.mp h2
    obtain ⟨⟨_, hlt⟩, rfl⟩ := packU32_eq_ok.mp hlen
    rw [packU32_natCast_ok (crc32_lt _)] at hc2
    injection hc2 with hc3
    subst hc3
    simp only [pure, Except.pure, Except.ok.injEq] at h3
    have hlt' : (comp (raw_data size)).length < 2 ^ 32 := by exact_mod_cast hlt
    refine ⟨hlt', ?_⟩
    rw [← h3]
    simp
  · rintro ⟨hlt, rfl⟩
    rw [exceptBind_ok]
    refine ⟨to32be (comp (raw_data size)).length, packU32_natCast_ok hlt, ?_⟩
    rw [exceptBind_ok]
    exact ⟨_, packU32_natCast_ok (crc32_lt _), rfl⟩

theorem iend_chunk_eq :
    iend_chunk = .ok (to32be 0 ++ IEND_TY ++ to32be (crc32 IEND_TY)) := by
  unfold iend_chunk
  rw [exceptBind_ok]
  exact ⟨_, packU32_natCast_ok (crc32_lt _), rfl⟩

theorem png_data_ok_iff {comp : List Nat → List Nat} {size : Int}
    {out : List Nat} :
    png_data comp size = .ok out ↔
      ((0 ≤ size ∧ size < 2 ^ 32) ∧ (comp (raw_data size)).length < 2 ^ 32) ∧
      out = PNG_SIG
        ++ (to32be 13 ++ IHDR_TY ++ ihdr_payload size
              ++ to32be (crc32 (IHDR_TY ++ ihdr_payload size)))
        ++ (to32be (comp (raw_data size)).length ++ IDAT_TY
              ++ comp (raw_data size)
              ++ to32be (crc32 (IDAT_TY ++ comp (raw_data size))))
        ++ (to32be 0 ++ IEND_TY ++ to32be (crc32 IEND_TY)) := by
  unfold png_data
  simp only [exceptBind_ok, ihdr_chunk_ok_iff, idat_chunk_ok_iff, iend_chunk_eq,
    Except.ok.injEq, pure, Except.pure]
  constructor
  · rintro ⟨ih, ⟨hb, rfl⟩, idc, ⟨hlen, rfl⟩, ie, hie, hout⟩
    rw [← hie] at hout
    exact ⟨⟨hb, hlen⟩, hout.symm⟩
  · rintro ⟨⟨hb, hlen⟩, rfl⟩
    exact ⟨_, ⟨hb, rfl⟩, _, ⟨hlen, rfl⟩, _, rfl, rfl⟩

theorem create_icon_ok_iff {comp : List Nat → List Nat} {w : String → Bool}
    {size : Int} {f : String} {r : String × List Nat} :
    create_icon comp w size f = .ok r ↔
      png_data comp size = .ok r.2 ∧ w f = true ∧ r.1 = f := by
  unfold create_icon
  constructor
  · intro h
    obtain ⟨png, hpng, h2⟩ := exceptBind_ok.mp h
    by_cases hw : w f
    · simp only [hw, if_true, pure, Except.pure, Except.ok.injEq] at h2
      subst h2
      exact ⟨hpng, hw, rfl⟩
    · simp [hw] at h2
  · rintro ⟨hpng, hw, hf⟩
    cases r with
    | mk rf rb =>
      simp only at hpng hf
      subst hf
      rw [exceptBind_ok]
      exact ⟨rb, hpng, by simp [hw, pure, Except.pure]⟩

theorem create_icon_write_fail {comp : List Nat → List Nat}
    {w : String → Bool} {size : Int} {f : String} {b : List Nat}
    (hpng : png_data comp size = .ok b) (hw : w f = false) :
    create_icon comp w size f = .error .ioError := by
  unfold create_icon
  rw [hpng]
  simp [Bind.bind, Except.bind, hw]

theorem runCalls_nil (run : Int → String → Except PyError (String × List Nat)) :
    runCalls run [] = ([], none) := rfl

theorem runCalls_cons (run : Int → String → Except PyError (String × List Nat))
    (s : Int) (f : String) (rest : List (Int × String)) :
    runCalls run ((s, f) :: rest) =
      match run s f with
      | .ok r => (r :: (runCalls run rest).1, (runCalls run rest).2)
      | .error e => ([], some e) := rfl

theorem runCalls_icon_fail_first
    (run : Int → String → Except PyError (String × List Nat))
    (h : run 16 "icon16.png" = .error .ioError) :
    runCalls run icon_calls = ([], some PyError.ioError) := by
  simp only [icon_calls, runCalls_cons, h]

theorem runCalls_icon_all_ok
    (run : Int → String → Except PyError (String × List Nat))
    (r16 r32 r48 r128 : String × List Nat)
    (h16 : run 16 "icon16.png" = .ok r16) (h32 : run 32 "icon32.png" = .ok r32)
    (h48 : run 48 "icon48.png" = .ok r48)
    (h128 : run 128 "icon128.png" = .ok r128) :
    runCalls run icon_calls = ([r16, r32, r48, r128], none) := by
  simp only [icon_calls, runCalls_cons, runCalls_nil, h16, h32, h48, h128]

theorem png_data_ok_of_bounds {comp : List Nat → List Nat} {size : Int}
    (h0 : 0 ≤ size) (h1 : size < 2 ^ 32)
    (hc : (comp (raw_data size)).length < 2 ^ 32) :
    png_data comp size = .ok (PNG_SIG
      ++ (to32be 13 ++ IHDR_TY ++ ihdr_payload size
            ++ to32be (crc32 (IHDR_TY ++ ihdr_payload size)))
      ++ (to32be (comp (raw_data size)).length ++ IDAT_TY ++ comp (raw_data size)
            ++ to32be (crc32 (IDAT_TY ++ comp (raw_data size))))
      ++ (to32be 0 ++ IEND_TY ++ to32be (crc32 IEND_TY))) :=
  png_data_ok_iff.mpr ⟨⟨⟨h0, h1⟩, hc⟩, rfl⟩

theorem ihdr_data_neg {size : Int} (h : size < 0) :
    ihdr_data size = .error .structError := by
  have hc : ¬(0 ≤ size ∧ size < 2 ^ 32) := fun hc => absurd hc.1 (by omega)
  unfold ihdr_data packU32
  rw [if_neg hc]
  rfl

theorem png_data_neg {comp : List Nat → List Nat} {size : Int} (h : size < 0) :
    png_data comp size = .error .structError := by
  unfold png_data ihdr_chunk
  rw [ihdr_data_neg h]
  rfl

theorem create_icon_neg {comp : List Nat → List Nat} {w : String → Bool}
    {size : Int} {f : String} (h : size < 0) :
    create_icon comp w size f = .error .structError := by
  unfold create_icon
  rw [png_data_neg h]
  rfl

theorem serializeChunk_ihdr (size : Int) :
    serializeChunk IHDR_TY (ihdr_payload size) =
      to32be 13 ++ IHDR_TY ++ ihdr_payload size
        ++ to32be (crc32 (IHDR_TY ++ ihdr_payload size)) := by
  rw [serializeChunk, ihdr_payload_length]

theorem serializeChunk_iend :
    serializeChunk IEND_TY ([] : List Nat) =
      to32be 0 ++ IEND_TY ++ to32be (crc32 IEND_TY) := by
  simp [serializeChunk, to32be]

-- ## Claim theorems

/-- C1: Round-trip — for every positive size N, the raw scanline buffer that
`create_icon` compresses into the IDAT payload decompresses back (via any
inverse of the compressor, as standard zlib inflate is of `zlib.compress`)
to exactly N rows, each a filter byte 0 followed by N pixel triples
(76, 175, 80): the uniform green N×N image. -/
theorem C1_idat_roundtrip (comp decomp : List Nat → List Nat) (size : Int)
    (hinv : ∀ b, decomp (comp b) = b) (hpos : 0 < size) :
    decomp (idat_payload comp size) = greenImageRows size := by
  rw [idat_payload, hinv]
  rfl

/-- Witness for C1 at size 2 with the identity compressor pair. -/
theorem C1_witness :
    ((0 : Int) < 2) ∧
    (fun (b : List Nat) => b) (idat_payload (fun b => b) 2) = greenImageRows 2 :=
  ⟨by norm_num, C1_idat_roundtrip (fun b => b) (fun b => b) 2 (fun _ => rfl) (by norm_num)⟩

/-- C2: Chunk invariant — in the byte stream a successful `create_icon`
call produces, each of the three chunks is serialized with a 4-byte
big-endian length field equal to the exact byte length of its payload
(13 for IHDR, the compressed length for IDAT, 0 for IEND) and a stored
4-byte CRC field equal to CRC-32 over the type tag concatenated with the
payload. -/
theorem C2_chunk_invariant (comp : List Nat → List Nat) (size : Int)
    (out : List Nat) (hpos : 0 < size) (h : png_data comp size = .ok out) :
    out = PNG_SIG ++ serializeChunk IHDR_TY (ihdr_payload size)
        ++ serializeChunk IDAT_TY (idat_payload comp size)
        ++ serializeChunk IEND_TY ([] : List Nat)
    ∧ (ihdr_payload size).length = 13 := by
  obtain ⟨⟨hb, hlen⟩, rfl⟩ := png_data_ok_iff.mp h
  refine ⟨?_, ihdr_payload_length size⟩
  rw [serializeChunk_ihdr, serializeChunk_iend]
  rfl

/-- Witness for C2 at size 2 with the trivial compressor. -/
theorem C2_witness :
    ((0 : Int) < 2) ∧
    (icon2Bytes = PNG_SIG ++ serializeChunk IHDR_TY (ihdr_payload 2)
        ++ serializeChunk IDAT_TY (idat_payload (fun _ => ([] : List Nat)) 2)
        ++ serializeChunk IEND_TY ([] : List Nat)
     ∧ (ihdr_payload 2).length = 13) :=
  ⟨by norm_num,
   C2_chunk_invariant (fun _ => []) 2 icon2Bytes (by norm_num) (by rfl)⟩

/-- C3: Output layout — the byte sequence `create_icon` writes is exactly
the 8-byte PNG signature followed by the serialized IHDR chunk, exactly one
serialized IDAT chunk, and the serialized IEND chunk, each serialized as
length ++ type ++ payload ++ CRC; the file begins with the signature. -/
theorem C3_output_layout (comp : List Nat → List Nat) (size : Int)
    (out : List Nat) (hpos : 0 < size) (h : png_data comp size = .ok out) :
    out = PNG_SIG ++ serializeChunk IHDR_TY (ihdr_payload size)
        ++ serializeChunk IDAT_TY (idat_payload comp size)
        ++ serializeChunk IEND_TY ([] : List Nat)
    ∧ out.take 8 = PNG_SIG := by
  obtain ⟨⟨hb, hlen⟩, rfl⟩ := png_data_ok_iff.mp h
  constructor
  · rw [serializeChunk_ihdr, serializeChunk_iend]
    rfl
  · rfl

/-- Witness for C3 at size 2 with the trivial compressor. -/
theorem C3_witness :
    ((0 : Int) < 2) ∧
    (icon2Bytes = PNG_SIG ++ serializeChunk IHDR_TY (ihdr_payload 2)
        ++ serializeChunk IDAT_TY (idat_payload (fun _ => ([] : List Nat)) 2)
        ++ serializeChunk IEND_TY ([] : List Nat)
     ∧ icon2Bytes.take 8 = PNG_SIG) :=
  ⟨by norm_num,
   C3_output_layout (fun _ => []) 2 icon2Bytes (by norm_num) (by rfl)⟩

/-- C4: IHDR contents — the IHDR payload is exactly 13 bytes: width and
height both equal to the size, packed as 4-byte big-endian unsigned
integers, followed by bit depth 8, color type 2, compression 0, filter
method 0, interlace 0; and the IHDR length field in the chunk is 13. -/
theorem C4_ihdr_contents (size : Int) (l : List Nat) (hpos : 0 < size)
    (h : ihdr_data size = .ok l) :
    l = to32be size.toNat ++ to32be size.toNat ++ [8, 2, 0, 0, 0]
    ∧ l.length = 13
    ∧ ihdr_chunk size =
        .ok (to32be 13 ++ IHDR_TY ++ l ++ to32be (crc32 (IHDR_TY ++ l))) := by
  obtain ⟨hb, rfl⟩ := ihdr_data_ok_iff.mp h
  exact ⟨rfl, ihdr_payload_length size, ihdr_chunk_ok_iff.mpr ⟨hb, rfl⟩⟩

/-- Witness for C4 at size 2. -/
theorem C4_witness :
    ((0 : Int) < 2) ∧
    (ihdrPayload2 = to32be (2 : Int).toNat ++ to32be (2 : Int).toNat ++ [8, 2, 0, 0, 0]
     ∧ ihdrPayload2.length = 13
     ∧ ihdr_chunk 2 =
         .ok (to32be 13 ++ IHDR_TY ++ ihdrPayload2
               ++ to32be (crc32 (IHDR_TY ++ ihdrPayload2)))) :=
  ⟨by norm_num, C4_ihdr_contents 2 ihdrPayload2 (by norm_num) (by rfl)⟩

/-- C5: Raw scanline buffer shape — the uncompressed buffer built before
compression is `size` rows, each one filter byte 0x00 followed by `size`
copies of the triple 0x4C 0xAF 0x50, with total length
size * (1 + 3 * size). -/
theorem C5_raw_scanlines (size : Int) (hpos : 0 < size) :
    raw_data size =
      (List.replicate size.toNat
        (0x00 :: (List.replicate size.toNat [0x4C, 0xAF, 0x50]).flatten)).flatten
    ∧ (raw_data size).length = size.toNat * (1 + 3 * size.toNat) :=
  ⟨rfl, raw_data_length size⟩

/-- Witness for C5 at size 3. -/
theorem C5_witness :
    ((0 : Int) < 3) ∧
    (raw_data 3 =
      (List.replicate (3 : Int).toNat
        (0x00 :: (List.replicate (3 : Int).toNat [0x4C, 0xAF, 0x50]).flatten)).flatten
     ∧ (raw_data 3).length = (3 : Int).toNat * (1 + 3 * (3 : Int).toNat)) :=
  ⟨by norm_num, C5_raw_scanlines 3 (by norm_num)⟩

/-- C6: IEND trailer — the final chunk of the produced stream is IEND with
zero-length payload, a length field of 0, and a stored CRC equal to CRC-32
computed over the four bytes "IEND" alone. -/
theorem C6_iend_trailer (comp : List Nat → List Nat) (size : Int)
    (out : List Nat) (hpos : 0 < size) (h : png_data comp size = .ok out) :
    iend_chunk = .ok (serializeChunk IEND_TY ([] : List Nat))
    ∧ serializeChunk IEND_TY ([] : List Nat) =
        to32be 0 ++ IEND_TY ++ to32be (crc32 IEND_TY)
    ∧ ∃ front, out = front ++ serializeChunk IEND_TY ([] : List Nat) := by
  obtain ⟨⟨hb, hlen⟩, rfl⟩ := png_data_ok_iff.mp h
  refine ⟨?_, serializeChunk_iend, ?_⟩
  · rw [iend_chunk_eq, serializeChunk_iend]
  · exact ⟨_, by rw [serializeChunk_iend]⟩

/-- Witness for C6 at size 2 with the trivial compressor. -/
theorem C6_witness :
    ((0 : Int) < 2) ∧
    (iend_chunk = .ok (serializeChunk IEND_TY ([] : List Nat))
     ∧ serializeChunk IEND_TY ([] : List Nat) =
         to32be 0 ++ IEND_TY ++ to32be (crc32 IEND_TY)
     ∧ ∃ front, icon2Bytes = front ++ serializeChunk IEND_TY ([] : List Nat)) :=
  ⟨by norm_num,
   C6_iend_trailer (fun _ => []) 2 icon2Bytes (by norm_num) (by rfl)⟩

/-- C7 (amended): for every size < 0, `create_icon` fails — with the struct
packing error rather than a dedicated InvalidSize error — and no file is
written.  At size = 0 the original claim does not hold: the call succeeds
and writes a (degenerate 0×0) file, as the counterexample shows. -/
theorem C7_invalid_size (comp : List Nat → List Nat)
    (writable : String → Bool) (size : Int) (filename : String)
    (h : size < 0) :
    create_icon comp writable size filename = .error .structError :=
  create_icon_neg h

/-- C7 counterexample: at size = 0 — which the claim, quantifying over every
size ≤ 0, says must fail without writing — `create_icon` succeeds, writing
a file. -/
theorem C7_counterexample :
    exceptOk (create_icon (fun b => b) (fun _ => true) 0 "icon0.png") = true := by
  decide

/-- Witness for the amended C7 at size -1. -/
theorem C7_witness :
    ((-1 : Int) < 0) ∧
    create_icon (fun b => b) (fun _ => true) (-1) "icon.png" =
      .error PyError.structError :=
  ⟨by norm_num,
   C7_invalid_size (fun b => b) (fun _ => true) (-1) "icon.png" (by norm_num)⟩

/-- C8 (amended): the driver invokes the encoder sequentially with the four
literal pairs in order; when every path is writable it writes exactly the
four files (16, 32, 48, 128) in order, but when a call fails the uncaught
exception stops the script, so the remaining calls do not proceed — if the
very first write fails nothing at all is written. -/
theorem C8_driver_sequencing (comp : List Nat → List Nat)
    (writable : String → Bool) (hc : ∀ b, (comp b).length < 2 ^ 32) :
    ((∀ p, writable p = true) →
      ∃ b16 b32 b48 b128,
        runScript comp writable =
          ([("icon16.png", b16), ("icon32.png", b32),
            ("icon48.png", b48), ("icon128.png", b128)], none) ∧
        png_data comp 16 = .ok b16 ∧ png_data comp 32 = .ok b32 ∧
        png_data comp 48 = .ok b48 ∧ png_data comp 128 = .ok b128) ∧
    (writable "icon16.png" = false →
      runScript comp writable = ([], some PyError.ioError)) := by
  constructor
  · intro hw
    obtain ⟨b16, h16⟩ : ∃ b, png_data comp 16 = .ok b :=
      ⟨_, png_data_ok_of_bounds (by norm_num) (by norm_num) (hc _)⟩
    obtain ⟨b32, h32⟩ : ∃ b, png_data comp 32 = .ok b :=
      ⟨_, png_data_ok_of_bounds (by norm_num) (by norm_num) (hc _)⟩
    obtain ⟨b48, h48⟩ : ∃ b, png_data comp 48 = .ok b :=
      ⟨_, png_data_ok_of_bounds (by norm_num) (by norm_num) (hc _)⟩
    obtain ⟨b128, h128⟩ : ∃ b, png_data comp 128 = .ok b :=
      ⟨_, png_data_ok_of_bounds (by norm_num) (by norm_num) (hc _)⟩
    have c16 : create_icon comp writable 16 "icon16.png" = .ok ("icon16.png", b16) :=
      create_icon_ok_iff.mpr ⟨h16, hw _, rfl⟩
    have c32 : create_icon comp writable 32 "icon32.png" = .ok ("icon32.png", b32) :=
      create_icon_ok_iff.mpr ⟨h32, hw _, rfl⟩
    have c48 : create_icon comp writable 48 "icon48.png" = .ok ("icon48.png", b48) :=
      create_icon_ok_iff.mpr ⟨h48, hw _, rfl⟩
    have c128 : create_icon comp writable 128 "icon128.png" = .ok ("icon128.png", b128) :=
      create_icon_ok_iff.mpr ⟨h128, hw _, rfl⟩
    refine ⟨b16, b32, b48, b128, ?_, h16, h32, h48, h128⟩
    exact runCalls_icon_all_ok _ _ _ _ _ c16 c32 c48 c128
  · intro hw
    obtain ⟨b16, h16⟩ : ∃ b, png_data comp 16 = .ok b :=
      ⟨_, png_data_ok_of_bounds (by norm_num) (by norm_num) (hc _)⟩
    have cfail := create_icon_write_fail h16 hw
    exact runCalls_icon_fail_first _ cfail

/-- C8 counterexample: with only icon16.png unwritable (every other path
writable), the claim says the remaining three calls still proceed; in fact
the script stops at the first failed call and writes nothing at all. -/
theorem C8_counterexample :
    runScript (fun _ => ([] : List Nat)) (fun f => f != "icon16.png") =
      ([], some PyError.ioError) := by
  obtain ⟨b16, h16⟩ : ∃ b, png_data (fun _ => ([] : List Nat)) 16 = .ok b :=
    ⟨_, png_data_ok_of_bounds (by norm_num) (by norm_num) (by simp)⟩
  have hw : (fun f : String => f != "icon16.png") "icon16.png" = false := by decide
  have cfail := create_icon_write_fail (w := fun f : String => f != "icon16.png") h16 hw
  exact runCalls_icon_fail_first _ cfail

/-- Witness for the amended C8 with the trivial compressor and an
all-writable filesystem. -/
theorem C8_witness :
    (∀ b : List Nat, ((fun _ => ([] : List Nat)) b).length < 2 ^ 32) ∧
    (((∀ p : String, (fun _ : String => true) p = true) →
      ∃ b16 b32 b48 b128,
        runScript (fun _ => ([] : List Nat)) (fun _ : String => true) =
          ([("icon16.png", b16), ("icon32.png", b32),
            ("icon48.png", b48), ("icon128.png", b128)], none) ∧
        png_data (fun _ => ([] : List Nat)) 16 = .ok b16 ∧
        png_data (fun _ => ([] : List Nat)) 32 = .ok b32 ∧
        png_data (fun _ => ([] : List Nat)) 48 = .ok b48 ∧
        png_data (fun _ => ([] : List Nat)) 128 = .ok b128) ∧
     ((fun _ : String => true) "icon16.png" = false →
      runScript (fun _ => ([] : List Nat)) (fun _ : String => true) =
        ([], some PyError.ioError))) :=
  ⟨fun b => by norm_num,
   C8_driver_sequencing (fun _ => []) (fun _ => true) (fun b => by norm_num)⟩

/-- C9: Byte-level determinism — the contents a successful `create_icon`
call writes are a function of the size (and the fixed compressor) alone:
two successful invocations with the same size, whatever their paths or
writability environments, write byte-for-byte identical contents. -/
theorem C9_byte_determinism (comp : List Nat → List Nat)
    (w1 w2 : String → Bool) (size : Int) (f1 f2 : String)
    (r1 r2 : String × List Nat)
    (h1 : create_icon comp w1 size f1 = .ok r1)
    (h2 : create_icon comp w2 size f2 = .ok r2) :
    r1.2 = r2.2 := by
  have e1 := (create_icon_ok_iff.mp h1).1
  have e2 := (create_icon_ok_iff.mp h2).1
  rw [e1] at e2
  simpa using e2

/-- Witness for C9: two size-1 calls to different paths write the same
bytes. -/
theorem C9_witness :
    (("fileA.png", icon1Bytes) : String × List Nat).2 =
      (("fileB.png", icon1Bytes) : String × List Nat).2 :=
  C9_byte_determinism (fun _ => []) (fun _ => true) (fun _ => true) 1
    "fileA.png" "fileB.png" ("fileA.png", icon1Bytes) ("fileB.png", icon1Bytes)
    (by decide) (by decide)

/-- C10: Atomicity on negative size — for every size < 0 the failure arises
while packing the IHDR fields (a negative value cannot be encoded as a
4-byte unsigned big-endian integer), before the output file is opened:
`ihdr_data` raises the packing error, `png_data` propagates it, and
`create_icon` returns it without producing any written file. -/
theorem C10_atomic_negative (comp : List Nat → List Nat)
    (writable : String → Bool) (size : Int) (filename : String)
    (h : size < 0) :
    ihdr_data size = .error .structError ∧
    png_data comp size = .error .structError ∧
    create_icon comp writable size filename = .error .structError :=
  ⟨ihdr_data_neg h, png_data_neg h, create_icon_neg h⟩

/-- Witness for C10 at size -7. -/
theorem C10_witness :
    ((-7 : Int) < 0) ∧
    (ihdr_data (-7) = .error PyError.structError ∧
     png_data (fun b => b) (-7) = .error PyError.structError ∧
     create_icon (fun b => b) (fun _ => true) (-7) "x.png" =
       .error PyError.structError) :=
  ⟨by norm_num,
   C10_atomic_negative (fun b => b) (fun _ => true) (-7) "x.png" (by norm_num)⟩
